import Mathlib

/-!
Verification of the prediction-and-execution engine of the Polymarket
15-minute Up/Down trading bot.

The development shallowly embeds, in Lean, the parts of the source that the
verified properties are about:

* `src/utils/pricePredictor.ts` (class `AdaptivePricePredictor`): the state
  record `PredictorState`, the update pipeline `updateAndPredict` and its
  helpers (`detectPole`, `calculateFeatures`, `predictPrice`,
  `learnFromPreviousPrediction`, `calculateConfidence`, `getDirection`,
  `generateSignal`, `updateEMA`, `updateStatistics`), and `reset`.
* the bot class `CopytradeArbBot` (in the bundled `config/index.ts` document):
  `slugForCurrent15m`, `executePredictionTrade`, `placeSecondSideLimitOrder`,
  `updatePredictionScore`, and the realized-direction computation from
  `handlePriceUpdate`.

Numbers are embedded as rationals; JavaScript `Math.sqrt` is the only
non-rational operation reached by the code below, and it is modelled as an
explicit function parameter `sqrtQ : Q -> Q`, so every theorem quantifying
over `sqrtQ` holds in particular for the interpretation used at run time.
JavaScript `Map` and `Set` objects are embedded as association lists and
lists of keys; mutation becomes explicit state passing, and the sequencing
of side effects inside one (synchronous) call of `executePredictionTrade`
is made observable as an emitted list of `TradeAction` events.
-/

namespace PolyArb

/-- Direction of a prediction: the source type is "up" | "down", no neutral. -/
inductive Direction where
  | up
  | down
deriving DecidableEq, Repr

/-- Trading signal emitted by the predictor. -/
inductive Signal where
  | BUY_UP
  | BUY_DOWN
  | HOLD
deriving DecidableEq, Repr

/-- Pole type: local peak or local trough of the smoothed price series. -/
inductive PoleType where
  | peak
  | trough
deriving DecidableEq, Repr

/-- Feature vector returned by calculateFeatures. -/
structure PriceFeatures where
  priceLag1 : ℚ
  priceLag2 : ℚ
  priceLag3 : ℚ
  momentum : ℚ
  volatility : ℚ
  trend : ℚ
deriving DecidableEq, Repr

/-- The model weights of the predictor (linear-regression coefficients). -/
structure ModelWeights where
  intercept : ℚ
  priceLag1 : ℚ
  priceLag2 : ℚ
  priceLag3 : ℚ
  momentum : ℚ
  volatility : ℚ
  trend : ℚ
deriving DecidableEq, Repr

/-- A recorded pole (element of poleHistory). -/
structure Pole where
  price : ℚ
  type : PoleType
  timestamp : ℤ
deriving DecidableEq, Repr

/-- Element of recentPredictions: outcome of one scored pole prediction. -/
structure RecentPred where
  correct : Bool
  confidence : ℚ
deriving DecidableEq, Repr

/-- Interface PricePrediction of the source, with the nested features record
flattened into three fields. -/
structure PricePrediction where
  predictedPrice : ℚ
  confidence : ℚ
  direction : Direction
  signal : Signal
  momentum : ℚ
  volatility : ℚ
  trend : ℚ
  isPoleValue : Bool
deriving DecidableEq, Repr

/-- The mutable instance state of class AdaptivePricePredictor. -/
structure PredictorState where
  priceHistory : List ℚ
  timestamps : List ℤ
  smoothedPrice : Option ℚ
  lastAddedPrice : Option ℚ
  stablePriceCount : ℕ
  lastStablePrice : Option ℚ
  weights : ModelWeights
  priceMean : ℚ
  priceStd : ℚ
  predictionCount : ℕ
  correctPredictions : ℕ
  recentPredictions : List RecentPred
  emaShort : ℚ
  emaLong : ℚ
  priceChangeHistory : List ℚ
  poleHistory : List Pole
  lastPolePrice : Option ℚ
  lastPoleType : Option PoleType
  lastPoleTimestamp : Option ℤ
  lastPrediction : Option PricePrediction
deriving DecidableEq, Repr

/-- readonly maxHistorySize = 10 -/
def maxHistorySize : ℕ := 10

/-- readonly noiseThreshold = 0.02 -/
def noiseThreshold : ℚ := 2/100

/-- smoothingAlpha = 0.5 -/
def smoothingAlpha : ℚ := 5/10

/-- readonly maxStableCount = 5 -/
def maxStableCount : ℕ := 5

/-- readonly learningRate = 0.05 -/
def learningRate : ℚ := 5/100

/-- readonly minLearningRate = 0.005 -/
def minLearningRate : ℚ := 5/1000

/-- readonly maxLearningRate = 0.2 -/
def maxLearningRate : ℚ := 2/10

/-- readonly recentWindowSize = 20 -/
def recentWindowSize : ℕ := 20

/-- readonly alphaShort = 2 / (2 + 1) -/
def alphaShort : ℚ := 2/3

/-- readonly alphaLong = 2 / (5 + 1) -/
def alphaLong : ℚ := 2/6

/-- readonly minPrice = 0.003 -/
def minPrice : ℚ := 3/1000

/-- readonly maxPrice = 0.97 -/
def maxPrice : ℚ := 97/100

/-- The field initializers of the weights record in the source. -/
def initialWeights : ModelWeights where
  intercept := 5/10
  priceLag1 := 25/100
  priceLag2 := 8/100
  priceLag3 := 4/100
  momentum := 35/100
  volatility := -(20/100)
  trend := 45/100

/-- The field initializers of a freshly constructed AdaptivePricePredictor. -/
def initialState : PredictorState where
  priceHistory := []
  timestamps := []
  smoothedPrice := none
  lastAddedPrice := none
  stablePriceCount := 0
  lastStablePrice := none
  weights := initialWeights
  priceMean := 5/10
  priceStd := 1/10
  predictionCount := 0
  correctPredictions := 0
  recentPredictions := []
  emaShort := 5/10
  emaLong := 5/10
  priceChangeHistory := []
  poleHistory := []
  lastPolePrice := none
  lastPoleType := none
  lastPoleTimestamp := none
  lastPrediction := none

/-- Mean of a list of rationals (JavaScript reduce-sum divided by length). -/
def listMean (l : List ℚ) : ℚ := l.sum / (l.length : ℚ)

/-- Population variance of a list of rationals, as computed in the source. -/
def listVariance (l : List ℚ) : ℚ :=
  ((l.map (fun p => (p - listMean l) ^ 2)).sum) / (l.length : ℚ)

/-- Method normalizePrice: z-score against running mean and std, clipped and
rescaled to the unit interval. -/
def normalizePrice (s : PredictorState) (price : ℚ) : ℚ :=
  let normalized := (price - s.priceMean) / s.priceStd
  max 0 (min 1 ((normalized + 3) / 6))

/-- Method denormalizePrice: inverse of the z-score rescaling. -/
def denormalizePrice (s : PredictorState) (normalized : ℚ) : ℚ :=
  let zScore := normalized * 6 - 3
  zScore * s.priceStd + s.priceMean

/-- Method normalizeMomentum: clip to the interval from -1 to 1. -/
def normalizeMomentum (momentum : ℚ) : ℚ := max (-1) (min 1 momentum)

/-- Method normalizeVolatility: scale by 5 and cap at 1. -/
def normalizeVolatility (volatility : ℚ) : ℚ := min 1 (volatility * 5)

/-- Method normalizeTrend: scale by 10 and clip to the interval from -1 to 1. -/
def normalizeTrend (trend : ℚ) : ℚ := max (-1) (min 1 (trend * 10))

/-- Method calculateVolatility: standard deviation of the last five history
points; Math.sqrt is the supplied function sqrtQ. -/
def calculateVolatility (sqrtQ : ℚ → ℚ) (s : PredictorState) : ℚ :=
  if s.priceHistory.length < 3 then 0
  else
    let recentPrices := s.priceHistory.drop (s.priceHistory.length - 5)
    sqrtQ (listVariance recentPrices)

/-- Method updateStatistics: recompute priceMean and priceStd from the
history buffer, with the division-by-zero guard on priceStd. -/
def updateStatistics (sqrtQ : ℚ → ℚ) (s : PredictorState) : PredictorState :=
  if s.priceHistory.length = 0 then s
  else
    let mean := listMean s.priceHistory
    let std := sqrtQ (listVariance s.priceHistory)
    { s with
      priceMean := mean
      priceStd := if std < 1/1000 then 1/10 else std }

/-- Method updateEMA: seed both EMAs on first use, then exponential updates. -/
def updateEMA (s : PredictorState) (price : ℚ) : PredictorState :=
  if s.emaShort = 5/10 ∧ s.emaLong = 5/10 then
    { s with emaShort := price, emaLong := price }
  else
    { s with
      emaShort := alphaShort * price + (1 - alphaShort) * s.emaShort
      emaLong := alphaLong * price + (1 - alphaLong) * s.emaLong }

/-- Method reset: clears the episodic state (history, smoothing, stability,
poles, EMAs, last prediction) and keeps the learned weights as well as the
normalization statistics and the accuracy counters. -/
def reset (s : PredictorState) : PredictorState :=
  { s with
    priceHistory := []
    timestamps := []
    emaShort := 5/10
    emaLong := 5/10
    smoothedPrice := none
    lastAddedPrice := none
    stablePriceCount := 0
    lastStablePrice := none
    poleHistory := []
    lastPolePrice := none
    lastPoleType := none
    lastPoleTimestamp := none
    lastPrediction := none
    priceChangeHistory := [] }

/-- Record a new pole: set the pole bookkeeping fields and push onto
poleHistory, shifting once when the bound of ten entries is exceeded. -/
def pushPole (s : PredictorState) (price : ℚ) (ty : PoleType) (timestamp : ℤ) :
    PredictorState :=
  let history := s.poleHistory ++ [⟨price, ty, timestamp⟩]
  { s with
    lastPolePrice := some price
    lastPoleType := some ty
    lastPoleTimestamp := some timestamp
    poleHistory := if history.length > 10 then history.drop 1 else history }

/-- Method detectPole. The source takes a currentPrice argument but reads the
center value from the history buffer; returns whether the newest point is a
pole together with the updated pole bookkeeping. -/
def detectPole (s : PredictorState) (timestamp : ℤ) : Bool × PredictorState :=
  if s.priceHistory.length < 3 then (false, s)
  else
    let n := s.priceHistory.length
    let centerIdx := n - 1
    let centerPrice := s.priceHistory.getD centerIdx 0
    let lookback := min 3 centerIdx
    let window := (s.priceHistory.take centerIdx).drop (centerIdx - lookback)
    let isPeak := window.all (fun p => decide (p < centerPrice))
    let isTrough := window.all (fun p => decide (p > centerPrice))
    if isPeak || isTrough then
      match s.lastPolePrice with
      | none =>
          (true, pushPole s centerPrice (if isPeak then .peak else .trough) timestamp)
      | some lastPole =>
          let changeFromLastPole := |centerPrice - lastPole|
          let isDifferentPoleType :=
            (isPeak && decide (s.lastPoleType = some .trough)) ||
            (isTrough && decide (s.lastPoleType = some .peak))
          if changeFromLastPole ≥ noiseThreshold || isDifferentPoleType then
            (true, pushPole s centerPrice (if isPeak then .peak else .trough) timestamp)
          else (false, s)
    else (false, s)

/-- Method calculateFeatures, including the branch taken when at least four
points exist and short-term and medium-term momentum agree in sign. -/
def calculateFeatures (sqrtQ : ℚ → ℚ) (s : PredictorState) : PriceFeatures :=
  let n := s.priceHistory.length
  let currentPrice := s.priceHistory.getD (n - 1) 0
  let priceLag1 := if n ≥ 2 then s.priceHistory.getD (n - 2) 0 else currentPrice
  let priceLag2 := if n ≥ 3 then s.priceHistory.getD (n - 3) 0 else priceLag1
  let priceLag3 := if n ≥ 4 then s.priceHistory.getD (n - 4) 0 else priceLag2
  let priceChange := currentPrice - priceLag1
  let momentum := if priceLag1 > 0 then priceChange / priceLag1 else 0
  let longerTermChange := currentPrice - priceLag2
  if n ≥ 4 ∧
      ((priceChange > 0 ∧ longerTermChange > 0) ∨ (priceChange < 0 ∧ longerTermChange < 0)) then
    let avgMomentum := (momentum + longerTermChange / (priceLag2 + 1/10000)) / 2
    let emaTrend := s.emaShort - s.emaLong
    let momentumTrend := avgMomentum * (5/10)
    let priceChangeTrend := (currentPrice - priceLag2) / (priceLag2 + 1/10000) * (3/10)
    let combinedTrend := emaTrend * (4/10) + momentumTrend * (4/10) + priceChangeTrend * (2/10)
    { priceLag1 := normalizePrice s priceLag1
      priceLag2 := normalizePrice s priceLag2
      priceLag3 := normalizePrice s priceLag3
      momentum := normalizeMomentum avgMomentum
      volatility := normalizeVolatility (calculateVolatility sqrtQ s)
      trend := normalizeTrend combinedTrend }
  else
    let emaTrend := s.emaShort - s.emaLong
    let momentumTrend := momentum * (5/10)
    let priceChangeTrend :=
      if n ≥ 3 then (currentPrice - priceLag2) / (priceLag2 + 1/10000) * (3/10) else 0
    let combinedTrend := emaTrend * (4/10) + momentumTrend * (4/10) + priceChangeTrend * (2/10)
    { priceLag1 := normalizePrice s priceLag1
      priceLag2 := normalizePrice s priceLag2
      priceLag3 := normalizePrice s priceLag3
      momentum := normalizeMomentum momentum
      volatility := normalizeVolatility (calculateVolatility sqrtQ s)
      trend := normalizeTrend combinedTrend }

/-- Method predictPrice: weighted sum of the features, denormalized. -/
def predictPrice (s : PredictorState) (f : PriceFeatures) : ℚ :=
  denormalizePrice s
    (s.weights.intercept +
      s.weights.priceLag1 * f.priceLag1 +
      s.weights.priceLag2 * f.priceLag2 +
      s.weights.priceLag3 * f.priceLag3 +
      s.weights.momentum * f.momentum +
      s.weights.volatility * f.volatility +
      s.weights.trend * f.trend)

/-- Sign of a price move as the source computes it: 1, -1 or 0. -/
def moveSign (a b : ℚ) : ℤ := if a > b then 1 else if a < b then -1 else 0

/-- Method learnFromPreviousPrediction: retrospectively recompute the previous
prediction from simplified features, then update every weight by gradient
descent with an error- and correctness-adaptive learning rate and decay, and
record the outcome in the rolling accuracy window. The JavaScript or-defaults
on the simplified volatility and trend features are translated literally. -/
def learnFromPreviousPrediction (s : PredictorState) : PredictorState :=
  if s.priceHistory.length < 4 then s
  else
    let n := s.priceHistory.length
    let actualPrice := s.priceHistory.getD (n - 1) 0
    let previousPrice := s.priceHistory.getD (n - 2) 0
    let prevFeatures : PriceFeatures :=
      { priceLag1 := if n ≥ 3 then normalizePrice s (s.priceHistory.getD (n - 3) 0) else 5/10
        priceLag2 := if n ≥ 4 then normalizePrice s (s.priceHistory.getD (n - 4) 0) else 5/10
        priceLag3 := if n ≥ 5 then normalizePrice s (s.priceHistory.getD (n - 5) 0) else 5/10
        momentum := normalizeMomentum
          ((previousPrice - (if n ≥ 3 then s.priceHistory.getD (n - 3) 0 else previousPrice)) /
            (previousPrice + 1/10000))
        volatility := 1/10
        trend := 0 }
    let predictedPrice := predictPrice s prevFeatures
    let error := actualPrice - predictedPrice
    let normalizedError := min 1 (|error| * 10)
    let predictedDirection := moveSign predictedPrice previousPrice
    let actualDirection := moveSign actualPrice previousPrice
    let wasWrong := predictedDirection ≠ actualDirection ∧
      predictedDirection ≠ 0 ∧ actualDirection ≠ 0
    let directionCorrect := predictedDirection = actualDirection ∧ predictedDirection ≠ 0
    let errorMultiplier : ℚ := if wasWrong then 8 else 25/10
    let adaptiveLR := max minLearningRate
      (min maxLearningRate (learningRate * (1 + normalizedError * errorMultiplier)))
    let decay : ℚ := if wasWrong then 85/100 else 97/100
    let volFeature := if prevFeatures.volatility = 0 then 1/10 else prevFeatures.volatility
    let trendFeature := if prevFeatures.trend = 0 then 0 else prevFeatures.trend
    let lastConfidence :=
      match s.lastPrediction with
      | some p => if p.confidence = 0 then 5/10 else p.confidence
      | none => 5/10
    let recent := s.recentPredictions ++ [⟨decide directionCorrect, lastConfidence⟩]
    { s with
      weights :=
        { intercept := s.weights.intercept * decay + adaptiveLR * error
          priceLag1 := s.weights.priceLag1 * decay + adaptiveLR * error * prevFeatures.priceLag1
          priceLag2 := s.weights.priceLag2 * decay + adaptiveLR * error * prevFeatures.priceLag2
          priceLag3 := s.weights.priceLag3 * decay + adaptiveLR * error * prevFeatures.priceLag3
          momentum := s.weights.momentum * decay + adaptiveLR * error * prevFeatures.momentum
          volatility := s.weights.volatility * decay + adaptiveLR * error * volFeature
          trend := s.weights.trend * decay + adaptiveLR * error * trendFeature }
      predictionCount := s.predictionCount + 1
      correctPredictions := s.correctPredictions + (if directionCorrect then 1 else 0)
      recentPredictions := if recent.length > recentWindowSize then recent.drop 1 else recent }

/-- Number of correct entries of a slice of the rolling accuracy window. -/
def countCorrect (l : List RecentPred) : ℕ := (l.filter (fun p => p.correct)).length

/-- The body of method calculateConfidence up to, but not including, the
absolute hard cap near its end: the weighted blend of the factors, the
overconfidence penalty, the stability factor, the alignment boosts, the
volatility penalties, the magnitude boosts and the recent-accuracy caps. The
source block that computes an overconfidence penalty into an unused local
(before the blend) has no effect and is not reproduced. -/
def confidenceRaw (f : PriceFeatures) (predictedPrice currentPrice : ℚ)
    (s : PredictorState) : ℚ :=
  let volatilityPenalty : ℚ :=
    if f.volatility > 8/100 then 25/100 else if f.volatility > 6/100 then 10/100 else 0
  let volatilityFactor := max (20/100) (1 - f.volatility * 12 - volatilityPenalty)
  let trendFactor := min 1 (|f.trend| * 10)
  let momentumFactor := min 1 (|f.momentum| * 4)
  let predDiff := |predictedPrice - currentPrice|
  let predMagnitudeFactor := if predDiff ≥ noiseThreshold then min 1 (predDiff * 20) else 0
  let momentumAlignment : ℚ :=
    if (f.momentum > 0 ∧ predictedPrice > currentPrice) ∨
        (f.momentum < 0 ∧ predictedPrice < currentPrice) then 1 else 7/10
  let overallAccuracy : ℚ :=
    if s.predictionCount > 10 then (s.correctPredictions : ℚ) / (s.predictionCount : ℚ)
    else 6/10
  let len := s.recentPredictions.length
  let recentAccuracy : ℚ :=
    if len ≥ 10 then (countCorrect s.recentPredictions : ℚ) / (len : ℚ)
    else if len > 0 then (countCorrect s.recentPredictions : ℚ) / (len : ℚ)
    else 6/10
  let accuracyRate := recentAccuracy * (6/10) + overallAccuracy * (4/10)
  let stabilityFactor : ℚ :=
    if s.stablePriceCount > maxStableCount then
      max (5/10) (1 - ((s.stablePriceCount - maxStableCount : ℕ) : ℚ) * (1/10))
    else if s.stablePriceCount > 0 then 9/10
    else 1
  let c0 :=
    volatilityFactor * (18/100) + trendFactor * (45/100) + momentumFactor * (28/100) +
    predMagnitudeFactor * (12/100) + accuracyRate * (30/100) + momentumAlignment * (12/100)
  let highConf := s.recentPredictions.filter (fun p => decide (p.confidence ≥ 80/100))
  let c1 :=
    if len ≥ 10 ∧ highConf.length ≥ 5 then
      let highConfAccuracy := (countCorrect highConf : ℚ) / (highConf.length : ℚ)
      if highConfAccuracy < 65/100 then
        c0 * max (70/100) (85/100 - (65/100 - highConfAccuracy) * (5/10))
      else c0
    else c0
  let c2 := c1 * max (85/100) stabilityFactor
  let strongTrend := |f.trend| > 15/1000
  let strongMomentum := |f.momentum| > 5/1000
  let aligned := (f.trend > 0 ∧ f.momentum > 0) ∨ (f.trend < 0 ∧ f.momentum < 0)
  let c3 :=
    if strongTrend ∧ strongMomentum ∧ aligned ∧ accuracyRate ≥ 55/100 then
      let alignmentStrength := min 1 ((|f.trend| + |f.momentum|) * 6)
      min (95/100) (c2 * (1 + alignmentStrength * (40/100)))
    else if (strongTrend ∨ strongMomentum) ∧ accuracyRate ≥ 55/100 then
      min (90/100) (c2 * (115/100))
    else c2
  let c4 :=
    if f.volatility > 9/100 then c3 * (80/100)
    else if f.volatility > 8/100 then c3 * (88/100)
    else if f.volatility > 6/100 then c3 * (95/100)
    else c3
  let c5 :=
    if predDiff ≥ 2/100 ∧ aligned ∧ accuracyRate ≥ 55/100 then min (95/100) (c4 * (120/100))
    else c4
  let c6 :=
    if predDiff ≥ 10/100 ∧ aligned ∧ accuracyRate ≥ 60/100 then min (95/100) (c5 * (110/100))
    else c5
  if len ≥ 10 then
    let recentAccuracyCap := (countCorrect s.recentPredictions : ℚ) / (len : ℚ)
    let maxConfidence := min (92/100) (60/100 + recentAccuracyCap * (32/100))
    let c7 := min maxConfidence c6
    if recentAccuracyCap < 55/100 then min (75/100) c7
    else if recentAccuracyCap < 60/100 then min (80/100) c7
    else if recentAccuracyCap < 65/100 then min (85/100) c7
    else c7
  else min (85/100) c6

/-- The tail of method calculateConfidence: the absolute hard cap at 0.92,
the trend-momentum misalignment penalty, the very-stable-price penalty, and
the final clamp into the unit interval with floor 0.40. -/
def confidenceClamp (c : ℚ) (f : PriceFeatures) (stablePriceCount : ℕ) : ℚ :=
  let c1 := min (92/100) c
  let c2 :=
    if (f.trend > 0 ∧ f.momentum < -(3/100)) ∨ (f.trend < 0 ∧ f.momentum > 3/100) then
      max (35/100) (c1 * (70/100))
    else c1
  let c3 :=
    if stablePriceCount > maxStableCount * 2 then max (35/100) (c2 * (65/100))
    else c2
  max (40/100) (min 1 c3)

/-- Method calculateConfidence, as the composition of the two stages. -/
def calculateConfidence (f : PriceFeatures) (predictedPrice currentPrice : ℚ)
    (s : PredictorState) : ℚ :=
  confidenceClamp (confidenceRaw f predictedPrice currentPrice s) f s.stablePriceCount

/-- Method getDirection: never neutral; uses the prediction when the move is
significant and momentum or trend agree, otherwise trend, then momentum, then
the opposite of the last pole type, defaulting to up. It recomputes the
features from the current state, as the source does. -/
def getDirection (sqrtQ : ℚ → ℚ) (s : PredictorState)
    (predictedPrice currentPrice : ℚ) : Direction :=
  let diff := predictedPrice - currentPrice
  let effectiveThreshold :=
    if s.stablePriceCount > maxStableCount then noiseThreshold * 2 else noiseThreshold
  let f := calculateFeatures sqrtQ s
  if |diff| ≥ effectiveThreshold then
    let predictionDirection : Direction := if diff > 0 then .up else .down
    let momentumAligned :=
      (predictionDirection = .up ∧ f.momentum > -(1/100)) ∨
      (predictionDirection = .down ∧ f.momentum < 1/100)
    let trendAligned :=
      (predictionDirection = .up ∧ f.trend > -(1/100)) ∨
      (predictionDirection = .down ∧ f.trend < 1/100)
    if momentumAligned ∨ trendAligned then predictionDirection
    else if f.trend > 1/1000 ∨ f.momentum > 1/1000 then .up
    else if f.trend < -(1/1000) ∨ f.momentum < -(1/1000) then .down
    else predictionDirection
  else
    if f.trend > 1/1000 then .up
    else if f.trend < -(1/1000) then .down
    else if f.momentum > 1/1000 then .up
    else if f.momentum < -(1/1000) then .down
    else
      match s.lastPoleType with
      | some .peak => .down
      | some .trough => .up
      | none => .up

/-- The buy signal for a direction: BUY_UP for up, BUY_DOWN for down. -/
def buySignal (direction : Direction) : Signal :=
  match direction with
  | .up => .BUY_UP
  | .down => .BUY_DOWN

/-- Method generateSignal: the descending ladder of confidence tiers, each
with its own alignment and volatility conditions; HOLD when no tier fires. -/
def generateSignal (s : PredictorState) (direction : Direction) (confidence : ℚ)
    (f : PriceFeatures) : Signal :=
  let len := s.recentPredictions.length
  let recentAccuracy : ℚ :=
    if len ≥ 10 then (countCorrect s.recentPredictions : ℚ) / (len : ℚ) else 6/10
  let minConfidenceForTrade : ℚ :=
    if recentAccuracy < 50/100 then 65/100
    else if recentAccuracy < 55/100 then 60/100
    else 55/100
  if confidence ≥ 75/100 ∧ |f.trend| > 12/1000 ∧
      ((direction = .up ∧ f.trend > 12/1000 ∧ f.momentum > -(3/100)) ∨
        (direction = .down ∧ f.trend < -(12/1000) ∧ f.momentum < 3/100)) ∧
      f.volatility < 10/100 then
    buySignal direction
  else if confidence ≥ 68/100 ∧ |f.trend| > 15/1000 ∧
      ((direction = .up ∧ f.trend > 15/1000) ∨ (direction = .down ∧ f.trend < -(15/1000))) ∧
      ((direction = .up ∧ f.momentum > -(4/100)) ∨ (direction = .down ∧ f.momentum < 4/100)) ∧
      f.volatility < 10/100 then
    buySignal direction
  else if confidence ≥ 62/100 ∧ |f.trend| > 18/1000 ∧
      ((direction = .up ∧ f.trend > 18/1000 ∧ f.momentum > -(4/100)) ∨
        (direction = .down ∧ f.trend < -(18/1000) ∧ f.momentum < 4/100)) ∧
      f.volatility < 11/100 then
    buySignal direction
  else if confidence ≥ minConfidenceForTrade ∧
      ((|f.trend| > 12/100 ∧
          ((direction = .up ∧ f.trend > 8/100 ∧ f.momentum > -(5/100)) ∨
            (direction = .down ∧ f.trend < -(8/100) ∧ f.momentum < 5/100)) ∧
          f.volatility < 12/100) ∨
        (|f.momentum| > 2/100 ∧
          ((direction = .up ∧ f.trend > 8/100 ∧ f.momentum > -(5/100)) ∨
            (direction = .down ∧ f.trend < -(8/100) ∧ f.momentum < 5/100)) ∧
          f.volatility < 12/100 ∧ confidence ≥ 55/100)) then
    buySignal direction
  else if confidence ≥ 50/100 ∧ recentAccuracy ≥ 50/100 ∧ |f.trend| > 15/100 ∧
      ((direction = .up ∧ f.trend > 12/100 ∧ f.momentum > -(5/100)) ∨
        (direction = .down ∧ f.trend < -(12/100) ∧ f.momentum < 5/100)) ∧
      f.volatility < 11/100 then
    buySignal direction
  else .HOLD

/-- The tail of method updateAndPredict from pole detection onward: detect
the pole, and on a pole update the statistics, compute the features, the
linear prediction, the EMA update, the online learning step when at least
four points exist, the confidence, the direction and the signal, and build
and store the returned prediction. -/
def updateAtPole (sqrtQ : ℚ → ℚ) (s2 : PredictorState) (sm : ℚ) (timestamp : ℤ) :
    Option PricePrediction × PredictorState :=
  if !(detectPole s2 timestamp).1 then (none, (detectPole s2 timestamp).2)
  else
    let s4 := updateStatistics sqrtQ (detectPole s2 timestamp).2
    let features := calculateFeatures sqrtQ s4
    let predicted := predictPrice s4 features
    let s5 := updateEMA s4 sm
    let s6 :=
      if s5.priceHistory.length ≥ 4 then learnFromPreviousPrediction s5 else s5
    let confidence := calculateConfidence features predicted sm s6
    let direction := getDirection sqrtQ s6 predicted sm
    let signal := generateSignal s6 direction confidence features
    let prediction : PricePrediction :=
      { predictedPrice := predicted
        confidence := confidence
        direction := direction
        signal := signal
        momentum := features.momentum
        volatility := features.volatility
        trend := features.trend
        isPoleValue := true }
    (some prediction, { s6 with lastPrediction := some prediction })

/-- The state effect of accepting a smoothed price: store the smoothed
price, update the stability bookkeeping, append the smoothed value and the
timestamp to the bounded history, and remember it as the last added price.
This is the block of updateAndPredict between the smoothed-price assignment
and the minimum-history check. -/
def pushSmoothed (s : PredictorState) (sm : ℚ) (timestamp : ℤ) : PredictorState :=
  let sSm := { s with smoothedPrice := some sm }
  let smoothedPriceChange :=
    |sm - (match s.lastAddedPrice with | some lastAdded => lastAdded | none => sm)|
  let isStable := smoothedPriceChange < noiseThreshold
  let s1 :=
    if isStable then
      { sSm with
        stablePriceCount := sSm.stablePriceCount + 1
        lastStablePrice :=
          match sSm.lastStablePrice with
          | some lastStable =>
              if |sm - lastStable| < 1/1000 then some lastStable else some sm
          | none => some sm }
    else { sSm with stablePriceCount := 0, lastStablePrice := none }
  let pushedHistory := s1.priceHistory ++ [sm]
  let pushedTimestamps := s1.timestamps ++ [timestamp]
  { s1 with
    priceHistory :=
      if pushedHistory.length > maxHistorySize then pushedHistory.drop 1
      else pushedHistory
    timestamps :=
      if pushedHistory.length > maxHistorySize then pushedTimestamps.drop 1
      else pushedTimestamps
    lastAddedPrice := some sm }

/-- The pipeline after the noise gate: the smoothed value is range checked
(the smoothed price is already stored when the range check rejects, as in
the source), then stored via pushSmoothed, then the minimum-history check
and the pole branch run. -/
def acceptSmoothed (sqrtQ : ℚ → ℚ) (s : PredictorState) (sm : ℚ) (timestamp : ℤ) :
    Option PricePrediction × PredictorState :=
  if sm < minPrice ∨ sm > maxPrice then (none, { s with smoothedPrice := some sm })
  else
    if (pushSmoothed s sm timestamp).priceHistory.length < 3 then
      (none, pushSmoothed s sm timestamp)
    else updateAtPole sqrtQ (pushSmoothed s sm timestamp) sm timestamp

/-- Method updateAndPredict: the full update pipeline. Returns the optional
prediction together with the successor state. The range gate, the seeding of
the smoothing state and the raw-price noise gate follow the source line by
line; the rest of the pipeline is acceptSmoothed applied to the new EMA
value. -/
def updateAndPredict (sqrtQ : ℚ → ℚ) (s : PredictorState) (price : ℚ)
    (timestamp : ℤ) : Option PricePrediction × PredictorState :=
  if price < minPrice ∨ price > maxPrice then (none, s)
  else
    match s.smoothedPrice with
    | none =>
        (none, { s with
          smoothedPrice := some price
          lastAddedPrice := some price
          priceHistory := s.priceHistory ++ [price]
          timestamps := s.timestamps ++ [timestamp] })
    | some smoothed0 =>
        -- actualPriceChange of the source, inlined into the noise-gate test
        if s.lastAddedPrice.isSome ∧
            (match s.lastAddedPrice with
              | some lastAdded => |price - lastAdded|
              | none => 0) < noiseThreshold then (none, s)
        else
          acceptSmoothed sqrtQ s (smoothingAlpha * price + (1 - smoothingAlpha) * smoothed0)
            timestamp

/-- Which outcome token a trade buys first. -/
inductive SideToken where
  | UP
  | DOWN
deriving DecidableEq, Repr

/-- The opposite outcome token. -/
def oppositeToken (t : SideToken) : SideToken :=
  match t with
  | .UP => .DOWN
  | .DOWN => .UP

/-- Per market-window pair of buy counters (field tokenCountsByMarket). -/
structure TokenCounts where
  upTokenCount : ℕ
  downTokenCount : ℕ
deriving DecidableEq, Repr

/-- One element of the trades array of a prediction score. -/
structure TradeRecord where
  prediction : Direction
  predictedPrice : ℚ
  actualPrice : ℚ
  buyToken : SideToken
  buyPrice : ℚ
  buyCost : ℚ
  timestamp : ℤ
  wasCorrect : Option Bool
deriving DecidableEq, Repr

/-- One entry of the predictionScores map. -/
structure PredictionScore where
  market : String
  slug : String
  startTime : ℤ
  endTime : Option ℤ
  upTokenCost : ℚ
  downTokenCost : ℚ
  upTokenCount : ℕ
  downTokenCount : ℕ
  totalPredictions : ℕ
  correctPredictions : ℕ
  trades : List TradeRecord
deriving DecidableEq, Repr

/-- Lookup in an association list embedding a JavaScript Map. -/
def lookupA {α : Type} (k : String) (l : List (String × α)) : Option α :=
  (l.find? (fun kv => kv.1 == k)).map (fun kv => kv.2)

/-- Map.set on an association list: replace the value at the key when present,
otherwise append the binding. -/
def setA {α : Type} (k : String) (v : α) : List (String × α) → List (String × α)
  | [] => [(k, v)]
  | kv :: rest => if kv.1 = k then (k, v) :: rest else kv :: setA k v rest

/-- Set.add on a list of keys embedding a JavaScript Set. -/
def insertS (k : String) (l : List String) : List String :=
  if l.contains k then l else k :: l

/-- The per-instance state of CopytradeArbBot that the decision step touches:
token counters, paused markets, prediction scores and the start-time map. -/
structure BotState where
  tokenCountsByMarket : List (String × TokenCounts)
  pausedMarkets : List String
  predictionScores : List (String × PredictionScore)
  marketStartTimeBySlug : List (String × ℤ)
deriving DecidableEq, Repr

/-- The bot state at construction: all maps empty. -/
def emptyBotState : BotState where
  tokenCountsByMarket := []
  pausedMarkets := []
  predictionScores := []
  marketStartTimeBySlug := []

/-- Configuration consumed by the decision step. -/
structure DecisionConfig where
  maxBuyCountsPerSide : ℕ
  sharesPerSide : ℚ
deriving DecidableEq, Repr

/-- A fresh prediction score entry, as initialized in executePredictionTrade. -/
def freshScore (market slug : String) (now : ℤ) : PredictionScore where
  market := market
  slug := slug
  startTime := now
  endTime := none
  upTokenCost := 0
  downTokenCost := 0
  upTokenCount := 0
  downTokenCount := 0
  totalPredictions := 0
  correctPredictions := 0
  trades := []

/-- The observable side effects of one decision step, in program order:
counter increments and order submissions. -/
inductive TradeAction where
  | incrementUp
  | incrementDown
  | placePrimaryOrder (token : SideToken) (limitPrice : ℚ) (size : ℚ)
  | placeHedgeOrder (token : SideToken) (limitPrice : ℚ) (size : ℚ)
deriving DecidableEq, Repr

/-- The confidence gate constant minConfidenceForTrade of the decision step. -/
def minConfidenceForTrade : ℚ := 50/100

/-- Method placeSecondSideLimitOrder: skip when the market is paused, compute
the hedge limit price as 0.98 minus the first-side price, skip when that
price is not strictly between 0 and 1, otherwise submit a buy of the opposite
token at that price. -/
def placeSecondSideLimitOrder (sharesPerSide : ℚ) (firstSide : SideToken)
    (firstSidePrice : ℚ) (paused : Bool) : Option TradeAction :=
  if paused then none
  else
    let limitPrice := 98/100 - firstSidePrice
    if limitPrice ≤ 0 ∨ limitPrice ≥ 1 then none
    else some (.placeHedgeOrder (oppositeToken firstSide) limitPrice sharesPerSide)

/-- Method executePredictionTrade: initialize the score entry, apply the
confidence and HOLD gates, count the prediction, choose the side from the
predicted direction, apply the pause gate and the per-side cap, increment
both side counters, submit the primary order at the ask plus one cent and
the hedge via placeSecondSideLimitOrder, record the trade, and pause the
market once both counters have reached the maximum. The primary submission
in the source goes through buySharesWithRetry and buyShares, which place a
GTC limit order at askPrice + 0.01; both submissions appear in the emitted
action list in program order. -/
def executePredictionTrade (cfg : DecisionConfig) (market slug : String)
    (pred : PricePrediction) (upAsk downAsk : ℚ) (now : ℤ) (st : BotState) :
    BotState × List TradeAction :=
  let scoreKey := market ++ "-" ++ slug
  let st :=
    match lookupA scoreKey st.predictionScores with
    | some _ => st
    | none =>
        { st with
          predictionScores := setA scoreKey (freshScore market slug now) st.predictionScores
          marketStartTimeBySlug :=
            match lookupA scoreKey st.marketStartTimeBySlug with
            | some _ => st.marketStartTimeBySlug
            | none => setA scoreKey now st.marketStartTimeBySlug }
  let score := (lookupA scoreKey st.predictionScores).getD (freshScore market slug now)
  if pred.confidence < minConfidenceForTrade then (st, [])
  else if pred.signal = .HOLD then (st, [])
  else
    let score := { score with totalPredictions := score.totalPredictions + 1 }
    let st := { st with predictionScores := setA scoreKey score st.predictionScores }
    let buyToken : SideToken := match pred.direction with | .up => .UP | .down => .DOWN
    let buyPrice : ℚ := match pred.direction with | .up => upAsk | .down => downAsk
    if st.pausedMarkets.contains scoreKey then (st, [])
    else
      let tokenCounts := (lookupA scoreKey st.tokenCountsByMarket).getD ⟨0, 0⟩
      let st :=
        match lookupA scoreKey st.tokenCountsByMarket with
        | some _ => st
        | none =>
            { st with tokenCountsByMarket := setA scoreKey tokenCounts st.tokenCountsByMarket }
      if buyToken = .UP ∧ tokenCounts.upTokenCount ≥ cfg.maxBuyCountsPerSide then (st, [])
      else if buyToken = .DOWN ∧ tokenCounts.downTokenCount ≥ cfg.maxBuyCountsPerSide then
        (st, [])
      else
        let tokenCounts : TokenCounts :=
          ⟨tokenCounts.upTokenCount + 1, tokenCounts.downTokenCount + 1⟩
        let score :=
          { score with
            upTokenCount := score.upTokenCount + 1
            downTokenCount := score.downTokenCount + 1 }
        let buyCost := buyPrice * cfg.sharesPerSide
        let primary := TradeAction.placePrimaryOrder buyToken (buyPrice + 1/100) cfg.sharesPerSide
        let hedge := placeSecondSideLimitOrder cfg.sharesPerSide buyToken buyPrice
          (st.pausedMarkets.contains scoreKey)
        let score :=
          { score with
            upTokenCost := score.upTokenCost + buyCost
            downTokenCost := score.downTokenCost + buyCost
            trades := score.trades ++
              [⟨pred.direction, pred.predictedPrice, buyPrice, buyToken, buyPrice, buyCost,
                now, none⟩] }
        let pausedMarkets :=
          if tokenCounts.upTokenCount ≥ cfg.maxBuyCountsPerSide ∧
              tokenCounts.downTokenCount ≥ cfg.maxBuyCountsPerSide then
            insertS scoreKey st.pausedMarkets
          else st.pausedMarkets
        ({ st with
            tokenCountsByMarket := setA scoreKey tokenCounts st.tokenCountsByMarket
            predictionScores := setA scoreKey score st.predictionScores
            pausedMarkets := pausedMarkets },
          [.incrementUp, .incrementDown, primary] ++ hedge.toList)

/-- The realized-direction computation of handlePriceUpdate: up for a move of
at least the 0.02 threshold upward, down for at least 0.02 downward, and a
non-strict sign comparison for smaller moves. -/
def actualDirectionOf (priceDiff : ℚ) : Direction :=
  if |priceDiff| ≥ 2/100 then (if priceDiff > 0 then .up else .down)
  else (if priceDiff ≥ 0 then .up else .down)

/-- The scoring block of handlePriceUpdate: the realized direction for the
move from the price at the previous prediction to the current ask, and
whether the previous prediction matched it. -/
def scorePrevPrediction (lastPredDirection : Direction) (lastActualPrice upAsk : ℚ) :
    Direction × Bool :=
  let actualDirection := actualDirectionOf (upAsk - lastActualPrice)
  (actualDirection, decide (lastPredDirection = actualDirection))

/-- Replace the last element of a list, when there is one. -/
def setLast {α : Type} (l : List α) (v : α) : List α := l.dropLast ++ [v]

/-- Method updatePredictionScore: look up the score of the market-window,
take the most recent trade, and when it is still unevaluated store the
outcome on it and bump the correct counter on a correct prediction. -/
def updatePredictionScore (st : BotState) (market slug : String) (wasCorrect : Bool) :
    BotState :=
  let scoreKey := market ++ "-" ++ slug
  match lookupA scoreKey st.predictionScores with
  | none => st
  | some score =>
      match score.trades.getLast? with
      | none => st
      | some lastTrade =>
          if lastTrade.wasCorrect = none then
            let score :=
              { score with
                trades := setLast score.trades { lastTrade with wasCorrect := some wasCorrect }
                correctPredictions :=
                  score.correctPredictions + (if wasCorrect then 1 else 0) }
            { st with predictionScores := setA scoreKey score st.predictionScores }
          else st

/-- Function slugForCurrent15m. JavaScript Date setters and getMinutes work in
local time; the embedding takes the zone offset in minutes as an explicit
parameter (every real offset is a whole number of minutes, so zeroing the
seconds and milliseconds is zone independent). -/
def slugForCurrent15m (market : String) (nowMs : ℕ) (tzOffsetMin : ℤ) : String :=
  let minuteMs : ℤ := ((nowMs / 60000 : ℕ) : ℤ) * 60000
  let localMinutes : ℤ := (minuteMs / 60000 + tzOffsetMin) % 60
  let slotMin : ℤ := localMinutes / 15 * 15
  let boundaryMs : ℤ := minuteMs - (localMinutes - slotMin) * 60000
  let timestamp : ℤ := boundaryMs / 1000
  market ++ "-updown-15m-" ++ toString timestamp

/-! Statement-side helper definitions and concrete inputs used by the
theorems below. -/

/-- A prediction that passes the confidence and signal gates. -/
def predSample : PricePrediction where
  predictedPrice := 55/100
  confidence := 60/100
  direction := .up
  signal := .BUY_UP
  momentum := 0
  volatility := 0
  trend := 0
  isPoleValue := true

/-- The predictor state after the seeding call on price one half. -/
def seededState : PredictorState :=
  { initialState with
    smoothedPrice := some (1/2)
    lastAddedPrice := some (1/2)
    priceHistory := [1/2]
    timestamps := [0] }

/-- The realized direction in the wording of the specification. -/
def specRealizedDirection (d : ℚ) : Direction :=
  if d ≥ 2/100 then .up
  else if d ≤ -(2/100) then .down
  else if d ≥ 0 then .up
  else .down

/-- A bot state holding one score entry with a single unevaluated trade. -/
def scoredBotState : BotState :=
  { emptyBotState with
    predictionScores :=
      [("btc-s",
        { freshScore "btc" "s" 0 with
          totalPredictions := 1
          trades := [⟨.up, 55/100, 1/2, .UP, 1/2, 5/2, 0, none⟩] })] }

/-- The token the decision step buys first for a predicted direction. -/
def chosenToken (d : Direction) : SideToken :=
  match d with
  | .up => .UP
  | .down => .DOWN

/-- The ask price the decision step buys at for a predicted direction. -/
def chosenPrice (d : Direction) (upAsk downAsk : ℚ) : ℚ :=
  match d with
  | .up => upAsk
  | .down => downAsk

/-- The side counters recorded for a key, defaulting to zero. -/
def countsAt (st : BotState) (key : String) : TokenCounts :=
  (lookupA key st.tokenCountsByMarket).getD ⟨0, 0⟩

/-- The balance predicate of claim C10: every stored counter pair has its
up component equal to its down component. -/
def countsBalanced (st : BotState) : Bool :=
  st.tokenCountsByMarket.all (fun kv => kv.2.upTokenCount == kv.2.downTokenCount)

/-- A concrete interpretation of Math.sqrt for the witness run. -/
def sqrtW : ℚ → ℚ := fun _ => 1/20

/-- A predictor state two accepted points into a window. -/
def sW : PredictorState :=
  { initialState with
    priceHistory := [1/2, 53/100]
    timestamps := [0, 1]
    smoothedPrice := some (53/100)
    lastAddedPrice := some (53/100) }

/-- The prediction the pipeline produces from sW on the raw price 0.56. -/
def predW : PricePrediction where
  predictedPrice := 41111611/70680800
  confidence := 17/20
  direction := .up
  signal := .HOLD
  momentum := 3/106
  volatility := 1/4
  trend := 9771/88351
  isPoleValue := true

/-! Helper lemmas about the association-list embedding of Map and Set. -/

theorem lookupA_setA_self {α : Type} (k : String) (v : α) (l : List (String × α)) :
    lookupA k (setA k v l) = some v := by
  induction l with
  | nil => simp [setA, lookupA]
  | cons kv rest ih =>
      by_cases h : kv.1 = k
      · simp [setA, h, lookupA]
      · simpa [setA, h, lookupA, List.find?_cons, beq_iff_eq] using ih

theorem contains_insertS_self (k : String) (l : List String) :
    (insertS k l).contains k = true := by
  unfold insertS
  split_ifs with h
  · exact h
  · simp

theorem contains_insertS_mono (k k' : String) (l : List String)
    (h : l.contains k = true) : (insertS k' l).contains k = true := by
  unfold insertS
  split_ifs with h'
  · exact h
  · simp only [List.contains_cons, Bool.or_eq_true]
    exact Or.inr h

theorem all_setA {α : Type} (P : String × α → Bool) (k : String) (v : α)
    (l : List (String × α)) (hv : P (k, v) = true) (hl : l.all P = true) :
    (setA k v l).all P = true := by
  induction l with
  | nil => simpa [setA]
  | cons kv rest ih =>
      simp only [List.all_cons, Bool.and_eq_true] at hl
      by_cases h : kv.1 = k
      · simp [setA, h, hv, hl.2]
      · simp [setA, h, hl.1, ih hl.2]

theorem lookupA_all {α : Type} (P : String × α → Bool) (k : String)
    (l : List (String × α)) (v : α) (hl : l.all P = true)
    (hv : lookupA k l = some v) : P (k, v) = true := by
  induction l with
  | nil => simp [lookupA] at hv
  | cons kv rest ih =>
      simp only [List.all_cons, Bool.and_eq_true] at hl
      by_cases h : kv.1 = k
      · have : kv.2 = v := by
          simpa [lookupA, List.find?_cons, beq_iff_eq, h] using hv
        have hk : kv = (k, v) := by
          cases kv; simp_all
        simpa [hk] using hl.1
      · apply ih hl.2
        simpa [lookupA, List.find?_cons, beq_iff_eq, h] using hv

/-! Claim C8: reset clears the episodic state and preserves the weights. -/

/-- Claim C8: after reset, the price history, timestamps, pole history and
pole bookkeeping, smoothed-price state, stability state and both EMAs are
back at their initial empty or seed values, while the model weights (and the
cross-window statistics and accuracy counters) keep exactly the values they
had before the call. -/
theorem reset_clears_state_preserves_weights (s : PredictorState) :
    reset s =
      { initialState with
        weights := s.weights
        priceMean := s.priceMean
        priceStd := s.priceStd
        predictionCount := s.predictionCount
        correctPredictions := s.correctPredictions
        recentPredictions := s.recentPredictions } := rfl

/-! Claim C2: hedge price formula and skip condition. -/

/-- Claim C2: when the pause gate is clear, every submitted hedge order buys
the opposite token at limit price exactly 0.98 minus the primary-side ask
price, and the hedge is skipped precisely when that computed price is at most
0 or at least 1. -/
theorem hedge_price_exact_and_skip_iff (shares : ℚ) (side : SideToken) (p : ℚ) :
    (∀ a, placeSecondSideLimitOrder shares side p false = some a →
      a = TradeAction.placeHedgeOrder (oppositeToken side) (98/100 - p) shares) ∧
    (placeSecondSideLimitOrder shares side p false = none ↔
      (98/100 - p ≤ 0 ∨ 98/100 - p ≥ 1)) := by
  have heq : placeSecondSideLimitOrder shares side p false =
      if 98/100 - p ≤ 0 ∨ 98/100 - p ≥ 1 then none
      else some (TradeAction.placeHedgeOrder (oppositeToken side) (98/100 - p) shares) := rfl
  rw [heq]
  constructor
  · intro a ha
    by_cases h : (98/100 - p ≤ 0 ∨ 98/100 - p ≥ 1)
    · rw [if_pos h] at ha
      exact Option.noConfusion ha
    · rw [if_neg h] at ha
      exact (Option.some.inj ha).symm
  · by_cases h : (98/100 - p ≤ 0 ∨ 98/100 - p ≥ 1)
    · rw [if_pos h]
      exact ⟨fun _ => h, fun _ => rfl⟩
    · rw [if_neg h]
      exact ⟨fun hc => Option.noConfusion hc, fun hc => absurd hc h⟩

/-- Witness for claim C2: a primary ask of 0.40 yields a hedge at exactly
0.58, and a primary ask of 0.99 yields a computed price of -0.01 and a skip. -/
theorem hedge_price_witness :
    placeSecondSideLimitOrder 5 SideToken.UP (99/100) false = none ∧
    TradeAction.placeHedgeOrder SideToken.DOWN (29/50) 5 =
      TradeAction.placeHedgeOrder (oppositeToken SideToken.UP) (98/100 - 2/5) 5 :=
  ⟨(hedge_price_exact_and_skip_iff 5 SideToken.UP (99/100)).2.mpr (by norm_num),
    (hedge_price_exact_and_skip_iff 5 SideToken.UP (2/5)).1 _
      (by norm_num [placeSecondSideLimitOrder, oppositeToken])⟩

/-! Claim C1: behavior of the per-side cap at its default value zero. -/

/-- Claim C1 evaluation: with the configured per-side maximum at its default
of zero, a prediction that passes the confidence, signal and pause gates is
still rejected (no counter increment, no order), because the cap check fires
on zero at least zero; with maximum three, the identical input trades. The
repository README documents zero as meaning no cap. -/
theorem cap_zero_rejects_everything :
    ¬ predSample.confidence < minConfidenceForTrade ∧
    predSample.signal ≠ Signal.HOLD ∧
    emptyBotState.pausedMarkets.contains ("btc" ++ "-" ++ "slug") = false ∧
    (executePredictionTrade ⟨0, 5⟩ "btc" "slug" predSample (1/2) (49/100) 0
        emptyBotState).2 = [] ∧
    lookupA ("btc" ++ "-" ++ "slug")
        (executePredictionTrade ⟨0, 5⟩ "btc" "slug" predSample (1/2) (49/100) 0
          emptyBotState).1.tokenCountsByMarket = some ⟨0, 0⟩ ∧
    (executePredictionTrade ⟨3, 5⟩ "btc" "slug" predSample (1/2) (49/100) 0
        emptyBotState).2 =
      [.incrementUp, .incrementDown, .placePrimaryOrder .UP (51/100) 5,
        .placeHedgeOrder .DOWN (12/25) 5] := by
  refine ⟨by norm_num [predSample, minConfidenceForTrade], by simp [predSample], rfl, ?_, ?_, ?_⟩
  · simp [executePredictionTrade, predSample, minConfidenceForTrade, emptyBotState, freshScore,
      lookupA, setA, insertS, placeSecondSideLimitOrder, oppositeToken]
    norm_num
  · simp [executePredictionTrade, predSample, minConfidenceForTrade, emptyBotState, freshScore,
      lookupA, setA, insertS, placeSecondSideLimitOrder, oppositeToken]
    norm_num
  · simp [executePredictionTrade, predSample, minConfidenceForTrade, emptyBotState, freshScore,
      lookupA, setA, insertS, placeSecondSideLimitOrder, oppositeToken]
    norm_num

/-! Claim C4: the noise gate of the predictor. -/

/-- Claim C4 (amended): an update whose raw price differs from the last
stored price by less than the noise threshold is discarded entirely, once
the smoothing state is seeded: the call returns none and the whole predictor
state is unchanged, so in particular nothing is smoothed or stored and the
history length cannot grow. -/
theorem noise_gate_discards_entirely (sqrtQ : ℚ → ℚ) (s : PredictorState)
    (price : ℚ) (ts : ℤ) (sm lap : ℚ) (hsm : s.smoothedPrice = some sm)
    (hlap : s.lastAddedPrice = some lap) (hnoise : |price - lap| < noiseThreshold) :
    updateAndPredict sqrtQ s price ts = (none, s) := by
  unfold updateAndPredict
  by_cases hr : (price < minPrice ∨ price > maxPrice)
  · rw [if_pos hr]
  · rw [if_neg hr]
    simp only [hsm, hlap, Option.isSome_some]
    rw [if_pos ⟨trivial, hnoise⟩]

/-- Witness for claim C4: a raw price 0.515 arriving when the last stored
price is 0.5 differs by 0.015 and is discarded with the state unchanged. -/
theorem noise_gate_witness :
    updateAndPredict (fun _ => 0) seededState (103/200) 1 = (none, seededState) :=
  noise_gate_discards_entirely (fun _ => 0) seededState (103/200) 1 (1/2) (1/2) rfl rfl
    (by norm_num [noiseThreshold, abs])

/-- Counterexample for claim C4 as stated: on the raw sequence 0.50, 0.515,
0.53 every consecutive pair differs by less than 0.02, yet the third call
passes the noise gate (its distance to the last stored price 0.50 is 0.03)
and appends to the history, which grows from one point to two. -/
theorem drifting_sequence_grows_history :
    |(103/200 : ℚ) - 1/2| < noiseThreshold ∧
    |(53/100 : ℚ) - 103/200| < noiseThreshold ∧
    (updateAndPredict (fun _ => 0) initialState (1/2) 0).2.priceHistory.length = 1 ∧
    (updateAndPredict (fun _ => 0)
        ((updateAndPredict (fun _ => 0)
            ((updateAndPredict (fun _ => 0) initialState (1/2) 0).2) (103/200) 1).2)
        (53/100) 2).2.priceHistory.length = 2 := by
  have h1 : updateAndPredict (fun _ => (0:ℚ)) initialState (1/2) 0 = (none, seededState) := by
    norm_num [updateAndPredict, initialState, seededState, minPrice, maxPrice]
  have h2 : updateAndPredict (fun _ => (0:ℚ)) seededState (103/200) 1 = (none, seededState) := by
    norm_num [updateAndPredict, seededState, initialState, minPrice, maxPrice, noiseThreshold,
      abs]
  refine ⟨by norm_num [noiseThreshold, abs], by norm_num [noiseThreshold, abs], ?_, ?_⟩
  · rw [h1]
    simp [seededState, initialState]
  · rw [h1, h2]
    norm_num [updateAndPredict, acceptSmoothed, pushSmoothed, seededState, initialState,
      minPrice, maxPrice, noiseThreshold, smoothingAlpha, maxHistorySize, abs]

/-! Claim C7: the window identifier function. -/

/-- Claim C7: the window identifier is the market name joined with the Unix
timestamp of the wall clock floored to the most recent 15-minute boundary
(for any zone offset that is a multiple of 15 minutes), so times inside the
same quarter-hour bucket agree and the next bucket differs: 12:07:33 and
12:14:59 of the same hour map to one identifier and 12:15:01 to another. -/
theorem slug_is_15min_floor (market : String) (nowMs : ℕ) (tz : ℤ)
    (htz : tz % 15 = 0) :
    slugForCurrent15m market nowMs tz =
      market ++ "-updown-15m-" ++ toString (900 * ((nowMs : ℤ) / 900000)) ∧
    slugForCurrent15m "btc" 1760270853000 0 = slugForCurrent15m "btc" 1760271299000 0 ∧
    slugForCurrent15m "btc" 1760271301000 0 ≠ slugForCurrent15m "btc" 1760270853000 0 := by
  refine ⟨?_, by rfl, by decide⟩
  have hb : (((nowMs / 60000 : ℕ) : ℤ) * 60000 -
      ((((nowMs / 60000 : ℕ) : ℤ) * 60000 / 60000 + tz) % 60 -
        (((nowMs / 60000 : ℕ) : ℤ) * 60000 / 60000 + tz) % 60 / 15 * 15) * 60000) / 1000 =
      900 * ((nowMs : ℤ) / 900000) := by omega
  simp only [slugForCurrent15m]
  rw [hb]

/-- Witness for claim C7: the formula applied at a concrete instant. -/
theorem slug_is_15min_floor_witness :
    slugForCurrent15m "btc" 1760270853000 0 =
      "btc" ++ "-updown-15m-" ++ toString ((900 : ℤ) * ((1760270853000 : ℕ) / 900000 : ℕ)) :=
  (slug_is_15min_floor "btc" 1760270853000 0 (by decide)).1

/-! Claim C9: realized direction and score update. -/

/-- Claim C9: the realized direction equals up for a move of at least 0.02,
down for a move of at most minus 0.02, and the non-strict sign otherwise;
a prediction is scored correct exactly when its direction matches it; and
updating the score stamps the outcome on the most recent unevaluated trade
and bumps the correct counter exactly on a correct prediction. -/
theorem realized_direction_and_scoring (d : ℚ) (dir : Direction) (prev cur : ℚ)
    (st : BotState) (market slug : String) (w : Bool)
    (score : PredictionScore) (lastTrade : TradeRecord)
    (hs : lookupA (market ++ "-" ++ slug) st.predictionScores = some score)
    (ht : score.trades.getLast? = some lastTrade)
    (hu : lastTrade.wasCorrect = none) :
    actualDirectionOf d = specRealizedDirection d ∧
    ((scorePrevPrediction dir prev cur).2 = true ↔
      dir = actualDirectionOf (cur - prev)) ∧
    updatePredictionScore st market slug w =
      { st with
        predictionScores := setA (market ++ "-" ++ slug)
          { score with
            trades := setLast score.trades { lastTrade with wasCorrect := some w }
            correctPredictions := score.correctPredictions + (if w then 1 else 0) }
          st.predictionScores } := by
  refine ⟨?_, ?_, ?_⟩
  · unfold actualDirectionOf specRealizedDirection
    rcases le_or_lt 0 d with h0 | h0
    · rw [abs_of_nonneg h0]
      split_ifs <;> first | rfl | linarith
    · rw [abs_of_neg h0]
      split_ifs <;> first | rfl | linarith
  · unfold scorePrevPrediction
    simp
  · unfold updatePredictionScore
    simp only [hs, ht, hu, if_true]

/-- Witness for claim C9: a correct up-call scored on the concrete state. -/
theorem realized_direction_and_scoring_witness :
    actualDirectionOf (3/100) = specRealizedDirection (3/100) ∧
    ((scorePrevPrediction Direction.up (1/2) (53/100)).2 = true ↔
      Direction.up = actualDirectionOf (53/100 - 1/2)) ∧
    updatePredictionScore scoredBotState "btc" "s" true =
      { scoredBotState with
        predictionScores := setA ("btc" ++ "-" ++ "s")
          { ({ freshScore "btc" "s" 0 with
                totalPredictions := 1
                trades := [⟨.up, 55/100, 1/2, .UP, 1/2, 5/2, 0, none⟩] } : PredictionScore) with
            trades := setLast [⟨.up, 55/100, 1/2, .UP, 1/2, 5/2, 0, none⟩]
              ({ (⟨.up, 55/100, 1/2, .UP, 1/2, 5/2, 0, none⟩ : TradeRecord) with
                  wasCorrect := some true })
            correctPredictions := 0 + (if true then 1 else 0) }
          scoredBotState.predictionScores } :=
  realized_direction_and_scoring (3/100) Direction.up (1/2) (53/100) scoredBotState "btc" "s"
    true _ _ rfl rfl rfl

/-! Characterization of the decision step, shared by the cap, ordering and
pause theorems below. -/

/-- Characterization of an accepted trade: when the confidence, signal,
pause and chosen-side cap gates all pass, the step stores both counters
incremented by one, emits exactly the increment events followed by the
primary and optional hedge submissions, and pauses the key exactly when both
new counters have reached the maximum. -/
theorem executePredictionTrade_accepted (cfg : DecisionConfig) (market slug : String)
    (pred : PricePrediction) (upAsk downAsk : ℚ) (now : ℤ) (st : BotState)
    (hconf : ¬ pred.confidence < minConfidenceForTrade)
    (hsig : pred.signal ≠ Signal.HOLD)
    (hpause : st.pausedMarkets.contains (market ++ "-" ++ slug) = false)
    (hup : pred.direction = .up →
      (countsAt st (market ++ "-" ++ slug)).upTokenCount < cfg.maxBuyCountsPerSide)
    (hdown : pred.direction = .down →
      (countsAt st (market ++ "-" ++ slug)).downTokenCount < cfg.maxBuyCountsPerSide) :
    lookupA (market ++ "-" ++ slug)
        (executePredictionTrade cfg market slug pred upAsk downAsk now st).1.tokenCountsByMarket =
      some ⟨(countsAt st (market ++ "-" ++ slug)).upTokenCount + 1,
        (countsAt st (market ++ "-" ++ slug)).downTokenCount + 1⟩ ∧
    (executePredictionTrade cfg market slug pred upAsk downAsk now st).2 =
      [.incrementUp, .incrementDown,
        .placePrimaryOrder (chosenToken pred.direction)
          (chosenPrice pred.direction upAsk downAsk + 1/100) cfg.sharesPerSide] ++
      (placeSecondSideLimitOrder cfg.sharesPerSide (chosenToken pred.direction)
        (chosenPrice pred.direction upAsk downAsk) false).toList ∧
    (executePredictionTrade cfg market slug pred upAsk downAsk now st).1.pausedMarkets =
      (if (countsAt st (market ++ "-" ++ slug)).upTokenCount + 1 ≥ cfg.maxBuyCountsPerSide ∧
          (countsAt st (market ++ "-" ++ slug)).downTokenCount + 1 ≥ cfg.maxBuyCountsPerSide then
        insertS (market ++ "-" ++ slug) st.pausedMarkets
      else st.pausedMarkets) := by
  have hpause2 : ¬ (st.pausedMarkets.contains (market ++ "-" ++ slug) = true) :=
    fun hc => Bool.noConfusion (hpause.symm.trans hc)
  cases hdir : pred.direction with
  | up =>
      have hcap := hup hdir
      simp only [countsAt] at hcap
      simp only [executePredictionTrade, countsAt, chosenToken, chosenPrice, hdir]
      rcases Option.eq_none_or_eq_some (lookupA (market ++ "-" ++ slug) st.predictionScores)
          with hl0 | ⟨s0, hl0⟩ <;>
        rcases Option.eq_none_or_eq_some (lookupA (market ++ "-" ++ slug) st.tokenCountsByMarket)
          with hl1 | ⟨c1, hl1⟩ <;>
        simp only [hl0, hl1, Option.getD_some, Option.getD_none] at hcap ⊢ <;>
        simp only [if_neg hconf, if_neg hsig] <;>
        rw [if_neg hpause2] <;>
        simp only [hpause] <;>
        rw [if_neg (by rintro ⟨-, hge⟩; exact absurd hge (not_le.mpr hcap)),
          if_neg (by rintro ⟨hco, -⟩; cases hco)] <;>
        exact ⟨lookupA_setA_self _ _ _, rfl, rfl⟩
  | down =>
      have hcap := hdown hdir
      simp only [countsAt] at hcap
      simp only [executePredictionTrade, countsAt, chosenToken, chosenPrice, hdir]
      rcases Option.eq_none_or_eq_some (lookupA (market ++ "-" ++ slug) st.predictionScores)
          with hl0 | ⟨s0, hl0⟩ <;>
        rcases Option.eq_none_or_eq_some (lookupA (market ++ "-" ++ slug) st.tokenCountsByMarket)
          with hl1 | ⟨c1, hl1⟩ <;>
        simp only [hl0, hl1, Option.getD_some, Option.getD_none] at hcap ⊢ <;>
        simp only [if_neg hconf, if_neg hsig] <;>
        rw [if_neg hpause2] <;>
        simp only [hpause] <;>
        rw [if_neg (by rintro ⟨hco, -⟩; cases hco),
          if_neg (by rintro ⟨-, hge⟩; exact absurd hge (not_le.mpr hcap))] <;>
        exact ⟨lookupA_setA_self _ _ _, rfl, rfl⟩

/-- A paused market-window yields no actions from the decision step. -/
theorem executePredictionTrade_paused_actions (cfg : DecisionConfig) (market slug : String)
    (pred : PricePrediction) (upAsk downAsk : ℚ) (now : ℤ) (st : BotState)
    (hp : st.pausedMarkets.contains (market ++ "-" ++ slug) = true) :
    (executePredictionTrade cfg market slug pred upAsk downAsk now st).2 = [] := by
  simp only [executePredictionTrade]
  rcases Option.eq_none_or_eq_some (lookupA (market ++ "-" ++ slug) st.predictionScores)
      with hl0 | ⟨s0, hl0⟩ <;>
    rcases Option.eq_none_or_eq_some (lookupA (market ++ "-" ++ slug) st.tokenCountsByMarket)
      with hl1 | ⟨c1, hl1⟩ <;>
    simp only [hl0, hl1] <;>
    split_ifs <;> rfl

/-- The decision step never removes a key from the paused set. -/
theorem executePredictionTrade_paused_mono (cfg : DecisionConfig) (market slug : String)
    (pred : PricePrediction) (upAsk downAsk : ℚ) (now : ℤ) (st : BotState) (k : String)
    (hk : st.pausedMarkets.contains k = true) :
    (executePredictionTrade cfg market slug pred upAsk downAsk now st).1.pausedMarkets.contains
      k = true := by
  simp only [executePredictionTrade]
  rcases Option.eq_none_or_eq_some (lookupA (market ++ "-" ++ slug) st.predictionScores)
      with hl0 | ⟨s0, hl0⟩ <;>
    rcases Option.eq_none_or_eq_some (lookupA (market ++ "-" ++ slug) st.tokenCountsByMarket)
      with hl1 | ⟨c1, hl1⟩ <;>
    simp only [hl0, hl1] <;>
    split_ifs <;> first | exact hk | exact contains_insertS_mono _ _ _ hk

/-- The decision step preserves the balance of the counter pairs. -/
theorem executePredictionTrade_counts_balanced (cfg : DecisionConfig) (market slug : String)
    (pred : PricePrediction) (upAsk downAsk : ℚ) (now : ℤ) (st : BotState)
    (hbal : countsBalanced st = true) :
    countsBalanced (executePredictionTrade cfg market slug pred upAsk downAsk now st).1 = true := by
  unfold countsBalanced at hbal ⊢
  simp only [executePredictionTrade]
  rcases Option.eq_none_or_eq_some (lookupA (market ++ "-" ++ slug) st.predictionScores)
      with hl0 | ⟨s0, hl0⟩ <;>
    rcases Option.eq_none_or_eq_some (lookupA (market ++ "-" ++ slug) st.tokenCountsByMarket)
      with hl1 | ⟨c1, hl1⟩ <;>
    simp only [hl0, hl1, Option.getD_some, Option.getD_none] <;>
    split_ifs <;>
    first
      | exact hbal
      | exact all_setA _ _ _ _ rfl hbal
      | exact all_setA _ _ _ _ (by simp) (all_setA _ _ _ _ rfl hbal)
      | · have hc1 := lookupA_all _ (market ++ "-" ++ slug) _ c1 hbal hl1
          refine all_setA _ _ _ _ ?_ hbal
          simp only [Nat.beq_eq_true_eq] at hc1 ⊢
          omega

/-- The scoring update never touches the counter pairs. -/
theorem updatePredictionScore_tokenCounts (st : BotState) (market slug : String) (w : Bool) :
    (updatePredictionScore st market slug w).tokenCountsByMarket = st.tokenCountsByMarket := by
  simp only [updatePredictionScore]
  rcases Option.eq_none_or_eq_some (lookupA (market ++ "-" ++ slug) st.predictionScores)
      with hl0 | ⟨s0, hl0⟩
  · simp [hl0]
  · simp only [hl0]
    rcases Option.eq_none_or_eq_some s0.trades.getLast? with hl1 | ⟨t1, hl1⟩
    · simp [hl1]
    · simp only [hl1]
      split_ifs <;> rfl

/-! Claim C3: both counters incremented, before any order submission. -/

/-- Claim C3: an accepted trade increments both the up counter and the down
counter of the market-window by exactly one, and the emitted event trace puts
both increments strictly before the primary submission and the hedge
submission. -/
theorem both_counters_incremented_before_orders (cfg : DecisionConfig) (market slug : String)
    (pred : PricePrediction) (upAsk downAsk : ℚ) (now : ℤ) (st : BotState)
    (hconf : ¬ pred.confidence < minConfidenceForTrade)
    (hsig : pred.signal ≠ Signal.HOLD)
    (hpause : st.pausedMarkets.contains (market ++ "-" ++ slug) = false)
    (hup : pred.direction = .up →
      (countsAt st (market ++ "-" ++ slug)).upTokenCount < cfg.maxBuyCountsPerSide)
    (hdown : pred.direction = .down →
      (countsAt st (market ++ "-" ++ slug)).downTokenCount < cfg.maxBuyCountsPerSide) :
    lookupA (market ++ "-" ++ slug)
        (executePredictionTrade cfg market slug pred upAsk downAsk now st).1.tokenCountsByMarket =
      some ⟨(countsAt st (market ++ "-" ++ slug)).upTokenCount + 1,
        (countsAt st (market ++ "-" ++ slug)).downTokenCount + 1⟩ ∧
    (executePredictionTrade cfg market slug pred upAsk downAsk now st).2 =
      [.incrementUp, .incrementDown,
        .placePrimaryOrder (chosenToken pred.direction)
          (chosenPrice pred.direction upAsk downAsk + 1/100) cfg.sharesPerSide] ++
      (placeSecondSideLimitOrder cfg.sharesPerSide (chosenToken pred.direction)
        (chosenPrice pred.direction upAsk downAsk) false).toList :=
  ⟨(executePredictionTrade_accepted cfg market slug pred upAsk downAsk now st
      hconf hsig hpause hup hdown).1,
    (executePredictionTrade_accepted cfg market slug pred upAsk downAsk now st
      hconf hsig hpause hup hdown).2.1⟩

/-- Witness for claim C3: a concrete accepted trade from the empty state. -/
theorem both_counters_incremented_witness :
    lookupA ("btc" ++ "-" ++ "s")
        (executePredictionTrade ⟨3, 5⟩ "btc" "s" predSample (1/2) (49/100) 0
          emptyBotState).1.tokenCountsByMarket =
      some ⟨(countsAt emptyBotState ("btc" ++ "-" ++ "s")).upTokenCount + 1,
        (countsAt emptyBotState ("btc" ++ "-" ++ "s")).downTokenCount + 1⟩ ∧
    (executePredictionTrade ⟨3, 5⟩ "btc" "s" predSample (1/2) (49/100) 0 emptyBotState).2 =
      [.incrementUp, .incrementDown,
        .placePrimaryOrder (chosenToken predSample.direction)
          (chosenPrice predSample.direction (1/2) (49/100) + 1/100) (5:ℚ)] ++
      (placeSecondSideLimitOrder (5:ℚ) (chosenToken predSample.direction)
        (chosenPrice predSample.direction (1/2) (49/100)) false).toList :=
  both_counters_incremented_before_orders ⟨3, 5⟩ "btc" "s" predSample (1/2) (49/100) 0
    emptyBotState (by norm_num [predSample, minConfidenceForTrade]) (by simp [predSample]) rfl
    (fun _ => by norm_num [countsAt, lookupA, emptyBotState])
    (fun h => by simp [predSample] at h)

/-! Claim C6: reaching the cap on both sides pauses the window, and a paused
window is terminal for order placement. -/

/-- Claim C6: with a positive per-side maximum, once a window is paused no
decision for it emits any action and the pause flag is never cleared by the
decision step; and an accepted trade pauses the window exactly when both
incremented counters have reached the maximum. -/
theorem pause_reached_and_terminal (cfg : DecisionConfig) (market slug : String)
    (pred : PricePrediction) (upAsk downAsk : ℚ) (now : ℤ) (st : BotState)
    (_hM : 0 < cfg.maxBuyCountsPerSide) :
    (st.pausedMarkets.contains (market ++ "-" ++ slug) = true →
      (executePredictionTrade cfg market slug pred upAsk downAsk now st).2 = []) ∧
    (∀ k, st.pausedMarkets.contains k = true →
      (executePredictionTrade cfg market slug pred upAsk downAsk now
        st).1.pausedMarkets.contains k = true) ∧
    (¬ pred.confidence < minConfidenceForTrade → pred.signal ≠ Signal.HOLD →
      st.pausedMarkets.contains (market ++ "-" ++ slug) = false →
      (pred.direction = .up →
        (countsAt st (market ++ "-" ++ slug)).upTokenCount < cfg.maxBuyCountsPerSide) →
      (pred.direction = .down →
        (countsAt st (market ++ "-" ++ slug)).downTokenCount < cfg.maxBuyCountsPerSide) →
      ((countsAt st (market ++ "-" ++ slug)).upTokenCount + 1 ≥ cfg.maxBuyCountsPerSide ∧
          (countsAt st (market ++ "-" ++ slug)).downTokenCount + 1 ≥ cfg.maxBuyCountsPerSide ↔
        (executePredictionTrade cfg market slug pred upAsk downAsk now
          st).1.pausedMarkets.contains (market ++ "-" ++ slug) = true)) := by
  refine ⟨executePredictionTrade_paused_actions cfg market slug pred upAsk downAsk now st,
    fun k => executePredictionTrade_paused_mono cfg market slug pred upAsk downAsk now st k,
    ?_⟩
  intro hconf hsig hpause hup hdown
  have h3 := (executePredictionTrade_accepted cfg market slug pred upAsk downAsk now st
    hconf hsig hpause hup hdown).2.2
  constructor
  · intro hcond
    rw [h3, if_pos hcond]
    exact contains_insertS_self _ _
  · intro hcont
    by_contra hcond
    rw [h3, if_neg hcond] at hcont
    exact Bool.noConfusion (hpause.symm.trans hcont)

/-- Witness for claim C6: the pause behavior at maximum one on the concrete
accepted trade from the empty state. -/
theorem pause_reached_and_terminal_witness :
    (emptyBotState.pausedMarkets.contains ("btc" ++ "-" ++ "s") = true →
      (executePredictionTrade ⟨1, 5⟩ "btc" "s" predSample (1/2) (49/100) 0 emptyBotState).2 =
        []) ∧
    (∀ k, emptyBotState.pausedMarkets.contains k = true →
      (executePredictionTrade ⟨1, 5⟩ "btc" "s" predSample (1/2) (49/100) 0
        emptyBotState).1.pausedMarkets.contains k = true) ∧
    (¬ predSample.confidence < minConfidenceForTrade → predSample.signal ≠ Signal.HOLD →
      emptyBotState.pausedMarkets.contains ("btc" ++ "-" ++ "s") = false →
      (predSample.direction = .up →
        (countsAt emptyBotState ("btc" ++ "-" ++ "s")).upTokenCount < 1) →
      (predSample.direction = .down →
        (countsAt emptyBotState ("btc" ++ "-" ++ "s")).downTokenCount < 1) →
      ((countsAt emptyBotState ("btc" ++ "-" ++ "s")).upTokenCount + 1 ≥ 1 ∧
          (countsAt emptyBotState ("btc" ++ "-" ++ "s")).downTokenCount + 1 ≥ 1 ↔
        (executePredictionTrade ⟨1, 5⟩ "btc" "s" predSample (1/2) (49/100) 0
          emptyBotState).1.pausedMarkets.contains ("btc" ++ "-" ++ "s") = true)) :=
  pause_reached_and_terminal ⟨1, 5⟩ "btc" "s" predSample (1/2) (49/100) 0 emptyBotState
    (by norm_num)

/-! Claim C10: the two counters of a window always move together. -/

/-- Claim C10: the balance invariant that the up counter equals the down
counter for every stored key holds at the initial state and is preserved by
each decision step and by the scoring update; the order-fill tracking routine
that would bump one side alone has no call site in the source, so these are
all the transitions that touch the counters. -/
theorem up_down_counters_balanced (cfg : DecisionConfig) (market slug market2 slug2 : String)
    (pred : PricePrediction) (upAsk downAsk : ℚ) (now : ℤ) (st : BotState) (w : Bool)
    (hbal : countsBalanced st = true) :
    countsBalanced emptyBotState = true ∧
    countsBalanced (executePredictionTrade cfg market slug pred upAsk downAsk now st).1 = true ∧
    countsBalanced (updatePredictionScore st market2 slug2 w) = true := by
  refine ⟨rfl,
    executePredictionTrade_counts_balanced cfg market slug pred upAsk downAsk now st hbal, ?_⟩
  unfold countsBalanced
  rw [updatePredictionScore_tokenCounts]
  exact hbal

/-- Witness for claim C10: the invariant through one accepted trade. -/
theorem up_down_counters_balanced_witness :
    countsBalanced emptyBotState = true ∧
    countsBalanced
      (executePredictionTrade ⟨3, 5⟩ "btc" "s" predSample (1/2) (49/100) 0 emptyBotState).1 =
      true ∧
    countsBalanced (updatePredictionScore emptyBotState "btc" "s" true) = true :=
  up_down_counters_balanced ⟨3, 5⟩ "btc" "s" "btc" "s" predSample (1/2) (49/100) 0
    emptyBotState true rfl

/-! Claim C5: every produced confidence lies between 0.40 and 0.92. -/

/-- The clamp stage keeps any input inside the interval from 0.40 to 0.92. -/
theorem confidenceClamp_bounds (c : ℚ) (f : PriceFeatures) (n : ℕ) :
    40/100 ≤ confidenceClamp c f n ∧ confidenceClamp c f n ≤ 92/100 := by
  unfold confidenceClamp
  set c1 := min (92/100) c with hc1
  have h1 : c1 ≤ 92/100 := min_le_left _ _
  set c2 := if (f.trend > 0 ∧ f.momentum < -(3/100)) ∨ (f.trend < 0 ∧ f.momentum > 3/100) then
      max (35/100) (c1 * (70/100))
    else c1 with hc2
  have h2 : c2 ≤ 92/100 := by
    rw [hc2]
    split_ifs
    · refine max_le (by norm_num) ?_
      nlinarith [h1]
    · exact h1
  set c3 := if n > maxStableCount * 2 then max (35/100) (c2 * (65/100)) else c2 with hc3
  have h3 : c3 ≤ 92/100 := by
    rw [hc3]
    split_ifs
    · refine max_le (by norm_num) ?_
      nlinarith [h2]
    · exact h2
  exact ⟨le_max_left _ _, max_le (by norm_num) (le_trans (min_le_right _ _) h3)⟩

/-- Method calculateConfidence always yields a value between 0.40 and 0.92,
whatever the features, prices and internal state are. -/
theorem calculateConfidence_bounds (f : PriceFeatures) (predictedPrice currentPrice : ℚ)
    (s : PredictorState) :
    40/100 ≤ calculateConfidence f predictedPrice currentPrice s ∧
    calculateConfidence f predictedPrice currentPrice s ≤ 92/100 :=
  confidenceClamp_bounds (confidenceRaw f predictedPrice currentPrice s) f s.stablePriceCount

/-- A pole-branch result that carries a prediction has its confidence inside
the interval from 0.40 to 0.92. -/
theorem updateAtPole_confidence_bounds (sqrtQ : ℚ → ℚ) (s2 : PredictorState) (sm : ℚ)
    (ts : ℤ) (pred : PricePrediction)
    (h : (updateAtPole sqrtQ s2 sm ts).1 = some pred) :
    40/100 ≤ pred.confidence ∧ pred.confidence ≤ 92/100 := by
  unfold updateAtPole at h
  split at h
  · exact Option.noConfusion h
  · have hc := Option.some.inj h
    rw [← hc]
    exact calculateConfidence_bounds _ _ _ _

set_option maxHeartbeats 2000000 in
/-- A post-noise-gate result that carries a prediction has its confidence
inside the interval from 0.40 to 0.92. -/
theorem acceptSmoothed_confidence_bounds (sqrtQ : ℚ → ℚ) (s : PredictorState) (sm : ℚ)
    (ts : ℤ) (pred : PricePrediction)
    (h : (acceptSmoothed sqrtQ s sm ts).1 = some pred) :
    40/100 ≤ pred.confidence ∧ pred.confidence ≤ 92/100 := by
  unfold acceptSmoothed at h
  split at h
  · exact Option.noConfusion h
  · split at h
    · exact Option.noConfusion h
    · exact updateAtPole_confidence_bounds _ _ _ _ _ h

/-- Claim C5: every prediction returned by the update pipeline carries a
confidence of at least 0.40 and at most 0.92. -/
theorem prediction_confidence_bounds (sqrtQ : ℚ → ℚ) (s : PredictorState) (price : ℚ)
    (ts : ℤ) (pred : PricePrediction)
    (h : (updateAndPredict sqrtQ s price ts).1 = some pred) :
    40/100 ≤ pred.confidence ∧ pred.confidence ≤ 92/100 := by
  unfold updateAndPredict at h
  split at h
  · exact Option.noConfusion h
  · split at h
    · exact Option.noConfusion h
    · split at h
      · exact Option.noConfusion h
      · exact acceptSmoothed_confidence_bounds _ _ _ _ _ h

/-- Witness for claim C5: the concrete pole prediction produced from sW has
confidence 0.85, inside the required interval. -/
theorem prediction_confidence_bounds_witness :
    40/100 ≤ predW.confidence ∧ predW.confidence ≤ 92/100 :=
  prediction_confidence_bounds sqrtW sW (14/25) 2 predW (by
    norm_num [updateAndPredict, acceptSmoothed, pushSmoothed, updateAtPole, detectPole,
      pushPole, updateStatistics, calculateFeatures, calculateVolatility, listMean,
      listVariance, normalizePrice, denormalizePrice, normalizeMomentum, normalizeVolatility,
      normalizeTrend, predictPrice, updateEMA, learnFromPreviousPrediction, calculateConfidence,
      confidenceRaw, confidenceClamp, countCorrect, getDirection, buySignal, generateSignal,
      moveSign, sqrtW, sW, predW, initialState, initialWeights, minPrice, maxPrice,
      noiseThreshold, smoothingAlpha, maxHistorySize, maxStableCount, learningRate,
      minLearningRate, maxLearningRate, recentWindowSize, alphaShort, alphaLong, abs])

end PolyArb
